import Mathlib

/-!
Verification development for the travel-planning agent backend
(src/main.py and src/tools.py), as a shallow embedding in Lean 4.

Modelling conventions:
- Python strings are Lean String; Python None-able strings are Option String.
- Python exceptions are modelled with Except: a handler or gateway call that
  raises yields Except.error with the exception message.
- JSON text that the program itself parses again (the return value of
  load_preferences, consumed by json.loads in main.py) is modelled at the
  parsed-value level by the PyJson inductive; JSON text that is consumed
  opaquely (the error return of save_preference) is rendered to a String.
- The Model Gateway (genai ChatSession.send_message) is an external service;
  a run is parametrised by a script g : Nat -> Except String GenResponse
  giving the outcome of the i-th send_message call of the request.
- The unbounded Python while-loop is modelled with explicit fuel.
- The vector store backing the preference database is modelled as the list
  of its documents (the values of prefs_db.docstore._dict, in order).
-/

namespace TravelAgent

/-- A parsed Python JSON value (only the shapes the program produces). -/
inductive PyJson
  | jstr (s : String)
  | jlist (xs : List PyJson)
  | jobj (fields : List (String × PyJson))

/-- Association-list lookup, first match wins; models Python dict lookup
(dicts have unique keys, so first match is the match). -/
def lookupKey {α : Type} : List (String × α) → String → Option α
  | [], _ => none
  | (k, v) :: rest, key => if k = key then some v else lookupKey rest key

/-- Association-list update; models Python dict assignment d[key] = v
(overwrite in place when the key exists, append otherwise). -/
def setKey {α : Type} : List (String × α) → String → α → List (String × α)
  | [], key, v => [(key, v)]
  | (k, w) :: rest, key, v =>
      if k = key then (key, v) :: rest else (k, w) :: setKey rest key v

/-! ## src/tools.py : the preference store tools -/

/-- A document of the preference vector store: page_content plus the
metadata fields the code reads (metadata.get returns None when absent). -/
structure Document where
  page_content : String
  meta_user_id : Option String
  meta_type : Option String
deriving DecidableEq

/-- Python truthiness of an Optional[str]: falsy when None or empty. -/
def strFalsy : Option String → Bool
  | none => true
  | some s => s = ""

/-- The fixed message of the identity guard in tools.py. -/
def sysErrMsg : String := "System error: user_id was not provided to tool."

/-- Renders json.dumps of a one-field object with key error whose value
needs no JSON escaping (the only value used is the fixed ASCII sysErrMsg). -/
def jsonErrorString (msg : String) : String :=
  "\x7b\"error\": \"" ++ msg ++ "\"\x7d"

/-- tools.load_preferences (src/tools.py lines 192-220), at the parsed-JSON
level. The docstore access cannot fail in this pure model, so the final
except branch of the source is not represented. -/
def load_preferences (user_id : Option String) (docstore : List Document) :
    PyJson :=
  if strFalsy user_id then
    .jobj [("error", .jstr sysErrMsg)]
  else if docstore = [] then
    .jlist []
  else
    let user_prefs :=
      (docstore.filter (fun d => d.meta_user_id == user_id)).map
        Document.page_content
    if user_prefs = [] then .jlist []
    else .jlist (user_prefs.map .jstr)

/-- tools.save_preference (src/tools.py lines 222-245): returns the result
string and the new store. The store append models add_documents followed by
save_local; those external calls are assumed not to fail in this pure model,
so the except branch of the source is not represented. -/
def save_preference (preference : String) (user_id : Option String)
    (store : List Document) : String × List Document :=
  if strFalsy user_id then
    (jsonErrorString sysErrMsg, store)
  else
    let new_doc : Document := ⟨preference, user_id, some "preference"⟩
    ("Successfully saved preference: \x27" ++ preference ++ "\x27",
      store ++ [new_doc])

/-- The names of tools.available_tools (src/tools.py lines 277-285), the
keys of the tool_registry built in src/main.py lines 38-40. -/
def toolNames : List String :=
  ["get_weather", "web_search", "find_hotels", "search_knowledge",
   "save_preference", "load_preferences", "find_flights"]

/-! ## src/main.py : session memory manager -/

/-- One entry of a chat history: a role (user or model) with its parts. -/
structure Turn where
  role : String
  parts : List String
deriving DecidableEq

/-- A chat session, reduced to the history it was started with. -/
structure Session where
  history : List Turn
deriving DecidableEq

/-- The process-wide chat_sessions dict (src/main.py line 49). -/
abbrev SessionMap := List (String × Session)

/-- The SYSTEM_RULE text of src/main.py lines 64-70 (adjacent Python string
literals concatenate with no separator). -/
def sysRuleText : String :=
  "SYSTEM_RULE: You are a helpful and expert travel planning agent. "
    ++ "Your goal is to help the user plan a trip to any city. "
    ++ "First, understand their preferences (like \x27vegetarian\x27 or \x27museums\x27). "
    ++ "Then, use your tools (web_search, get_weather) to build a plan. "
    ++ "After you have presented the plan, ALWAYS proactively ask the user if they would also like help finding hotels OR flights for their trip."
    ++ "CRITICAL RULE: You must *never* show your internal reasoning, thoughts, or the specific tools you are calling (e.g., \x27Tool Call: web_search...\x27). "
    ++ "You must synthesize the information from your tools and present only the final, helpful answer directly to the user."

/-- The model acknowledgment of the policy (src/main.py lines 73-78). -/
def policyAckText : String :=
  "Understood. I am a helpful travel agent. I will follow your rules."

/-- The fixed two-turn system-policy preamble (src/main.py lines 60-79). -/
def policyPair : List Turn :=
  [⟨"user", [sysRuleText]⟩, ⟨"model", [policyAckText]⟩]

/-- The synthetic preference-summary user turn text (src/main.py line 91). -/
def prefsSummaryText (prefs : List String) : String :=
  "Please remember these are my long-term preferences: "
    ++ String.intercalate "; " prefs

/-- The synthetic model acknowledgment of loaded preferences
(src/main.py line 96). -/
def prefsAckText : String := "Understood. I have loaded your preferences."

/-- The two synthetic preference-seeding turns (src/main.py lines 89-98). -/
def seedTurns (prefs : List String) : List Turn :=
  [⟨"user", [prefsSummaryText prefs]⟩, ⟨"model", [prefsAckText]⟩]

/-- Extracts a Python list of str as Lean strings; none when some element
is not a string, in which case the str.join of the source raises. -/
def asStrList : List PyJson → Option (List String)
  | [] => some []
  | .jstr s :: rest => (asStrList rest).map (fun l => s :: l)
  | .jlist _ :: _ => none
  | .jobj _ :: _ => none

/-- The history construction of src/main.py lines 60-103. prefsOutcome is
what json.loads applied to tools.load_preferences(user_id) evaluates to,
or the exception the try block caught (Except.error). The length test of
line 86 precedes the join of line 91, whose TypeError on a non-string
element is caught by the except of line 101, leaving the bare preamble. -/
def buildHistory (prefsOutcome : Except String PyJson) : List Turn :=
  let history := policyPair
  match prefsOutcome with
  | .error _ => history
  | .ok prefs =>
    match prefs with
    | .jlist xs =>
        if 0 < xs.length then
          match asStrList xs with
          | some strs => history ++ seedTurns strs
          | none => history
        else history
    | .jstr _ => history
    | .jobj _ => history

/-- get_chat_session (src/main.py lines 51-107) as a state transformer on
the chat_sessions map: returns the session and the updated map. -/
def get_chat_session (sessions : SessionMap) (user_id : String)
    (prefsOutcome : Except String PyJson) : Session × SessionMap :=
  match lookupKey sessions user_id with
  | some s => (s, sessions)
  | none =>
      let s : Session := ⟨buildHistory prefsOutcome⟩
      (s, sessions ++ [(user_id, s)])

/-! ## src/main.py : chat endpoint and tool-dispatch loop -/

/-- The argument mapping of a tool call (fc.args as a dict). The dispatch
loop treats argument values opaquely except for the injected user_id string,
so values are modelled as strings. -/
abbrev Args := List (String × String)

/-- A tool handler: the Python callable, which either returns a string or
raises (Except.error carries the exception message). -/
abbrev Handler := Args → Except String String

/-- The tool_registry of src/main.py lines 38-40: tool name to handler.
Handlers are abstract here because the concrete tools are network-bound. -/
abbrev Registry := List (String × Handler)

/-- A function_call carried by a response part. -/
structure ToolCall where
  name : String
  args : Args
deriving DecidableEq

/-- A response content part: text defaults to the empty (falsy) string, and
function_call is None (falsy) when the part carries no tool call. -/
structure Part where
  text : String
  function_call : Option ToolCall
deriving DecidableEq

/-- The content of a response candidate. -/
structure Content where
  parts : List Part
deriving DecidableEq

/-- One candidate of a Model Gateway response. -/
structure Candidate where
  content : Content
deriving DecidableEq

/-- A Model Gateway response as inspected by the loop. -/
structure GenResponse where
  candidates : List Candidate
deriving DecidableEq

/-- response.candidates[0].content.parts[0] under the guard of
src/main.py line 136: none when candidates or parts is empty. -/
def leadingPart (r : GenResponse) : Option Part :=
  match r.candidates with
  | [] => none
  | c :: _ =>
    match c.content.parts with
    | [] => none
    | p :: _ => some p

/-- The function_call of the leading part, none when there is no leading
part or it carries no tool call: exactly the condition under which the
while loop breaks (src/main.py lines 136-143). -/
def leadingCall (r : GenResponse) : Option ToolCall :=
  match leadingPart r with
  | none => none
  | some p => p.function_call

/-- The identity injection of src/main.py lines 164-165: for the two
preference tools, overwrite any model-supplied user_id argument with the
user_id of the request. -/
def injectArgs (tool_name user_id : String) (args : Args) : Args :=
  if tool_name ∈ ["save_preference", "load_preferences"] then
    setKey args "user_id" user_id
  else args

/-- The payload of a function_response message sent back to the gateway:
a result field on success, an error field otherwise. -/
inductive ToolPayload
  | result (s : String)
  | failure (s : String)
deriving DecidableEq

/-- A function_response message passed to chat.send_message inside the
loop (src/main.py lines 154-159, 173-178, 183-188). -/
structure FunctionResponse where
  name : String
  response : ToolPayload
deriving DecidableEq

/-- Outcome of the while loop of src/main.py lines 135-188. finished
carries the response the loop ended on, the trace of function_response
messages passed to send_message, and the index of the next unconsumed
gateway outcome; raised means an uncaught exception escaped the loop
(and hence the request handler); fuelOut is a model artifact of bounding
the unbounded while loop with fuel. -/
inductive LoopResult
  | finished (final : GenResponse) (sent : List FunctionResponse) (next : Nat)
  | raised (e : String) (sent : List FunctionResponse)
  | fuelOut (sent : List FunctionResponse)
deriving DecidableEq

/-- The tool-dispatch while loop (src/main.py lines 135-188). g i is the
outcome of the i-th send_message call of the request (the initial user
message being call 0), response the current response, i the index of the
next send, sent the trace so far. Faithful details: the sends at lines 154
and 183 are not inside any try, so a gateway exception there escapes; the
send at line 173 is inside the try of line 167, so its exception is caught
at line 180 and reported as a tool-execution error via the line-183 send,
consuming a second gateway outcome. -/
def toolLoop (reg : Registry) (user_id : String)
    (g : Nat → Except String GenResponse) :
    Nat → GenResponse → Nat → List FunctionResponse → LoopResult
  | 0, _, _, sent => .fuelOut sent
  | fuel + 1, response, i, sent =>
    match leadingPart response with
    | none => .finished response sent i
    | some part =>
      match part.function_call with
      | none => .finished response sent i
      | some fc =>
        match lookupKey reg fc.name with
        | none =>
          let fr : FunctionResponse :=
            ⟨fc.name, .failure ("Unknown tool: " ++ fc.name)⟩
          match g i with
          | .error e => .raised e (sent ++ [fr])
          | .ok r => toolLoop reg user_id g fuel r (i + 1) (sent ++ [fr])
        | some handler =>
          let tool_args := injectArgs fc.name user_id fc.args
          match handler tool_args with
          | .ok tool_result =>
            let fr : FunctionResponse := ⟨fc.name, .result tool_result⟩
            match g i with
            | .ok r => toolLoop reg user_id g fuel r (i + 1) (sent ++ [fr])
            | .error e =>
              let fr2 : FunctionResponse :=
                ⟨fc.name, .failure ("Error executing tool: " ++ e)⟩
              match g (i + 1) with
              | .ok r =>
                  toolLoop reg user_id g fuel r (i + 2) (sent ++ [fr, fr2])
              | .error e2 => .raised e2 (sent ++ [fr, fr2])
          | .error em =>
            let fr : FunctionResponse :=
              ⟨fc.name, .failure ("Error executing tool: " ++ em)⟩
            match g i with
            | .ok r => toolLoop reg user_id g fuel r (i + 1) (sent ++ [fr])
            | .error e2 => .raised e2 (sent ++ [fr])

/-- The request body of the chat endpoint (src/main.py lines 112-114). -/
structure ChatRequest where
  user_id : String
  message : String
deriving DecidableEq

/-- Outcome of one chat request: a returned response dict, an exception
escaping the request handler, or the fuel artifact. -/
inductive ChatResult
  | reply (user_id response : String)
  | exn (e : String)
  | fuelOut
deriving DecidableEq

/-- The final-response selection of src/main.py lines 190-196: the leading
text when present and truthy, the generic apology otherwise. -/
def finishResponse (user_id : String) (r : GenResponse) : ChatResult :=
  match leadingPart r with
  | some p =>
      if p.text ≠ "" then .reply user_id p.text
      else .reply user_id "Sorry, I encountered an error."
  | none => .reply user_id "Sorry, I encountered an error."

/-- chat_endpoint (src/main.py lines 116-196): retrieve or create the
session (line 123), send the user message (call 0) inside the only
try/except around a gateway call (lines 125-130), then run the dispatch
loop and select the final response. Returns the result together with the
updated session map. -/
def chat_endpoint (sessions : SessionMap)
    (prefsOutcome : Except String PyJson) (reg : Registry)
    (request : ChatRequest) (g : Nat → Except String GenResponse)
    (fuel : Nat) : ChatResult × SessionMap :=
  let created := get_chat_session sessions request.user_id prefsOutcome
  match g 0 with
  | .error e =>
      (.reply request.user_id ("Sorry, I encountered an error: " ++ e),
        created.2)
  | .ok r0 =>
    match toolLoop reg request.user_id g fuel r0 1 [] with
    | .finished rf _ _ => (finishResponse request.user_id rf, created.2)
    | .raised e _ => (.exn e, created.2)
    | .fuelOut _ => (.fuelOut, created.2)

/-! ## Helper lemmas -/

theorem lookupKey_setKey_self {α : Type} (a : List (String × α)) (key : String)
    (v : α) : lookupKey (setKey a key v) key = some v := by
  induction a with
  | nil => simp [setKey, lookupKey]
  | cons hd tl ih =>
      obtain ⟨k, w⟩ := hd
      by_cases hk : k = key
      · simp [setKey, hk, lookupKey]
      · simp [setKey, hk, lookupKey, ih]

theorem lookupKey_setKey_other {α : Type} (a : List (String × α))
    (key k : String) (v : α) (h : k ≠ key) :
    lookupKey (setKey a key v) k = lookupKey a k := by
  have hne : key ≠ k := Ne.symm h
  induction a with
  | nil => simp [setKey, lookupKey, hne]
  | cons hd tl ih =>
      obtain ⟨k0, w⟩ := hd
      by_cases hk : k0 = key
      · subst hk
        simp [setKey, lookupKey, hne]
      · simp [setKey, hk, lookupKey, ih]

theorem asStrList_map (strs : List String) :
    asStrList (strs.map .jstr) = some strs := by
  induction strs with
  | nil => simp [asStrList]
  | cons hd tl ih => simp [asStrList, ih]

theorem buildHistory_shape (o : Except String PyJson) :
    buildHistory o = policyPair ∨
      ∃ ps, buildHistory o = policyPair ++ seedTurns ps := by
  match o with
  | .error e => exact Or.inl rfl
  | .ok (.jstr s) => exact Or.inl rfl
  | .ok (.jobj f) => exact Or.inl rfl
  | .ok (.jlist xs) =>
      by_cases hlen : 0 < xs.length
      · match hstr : asStrList xs with
        | some strs =>
            exact Or.inr ⟨strs, by simp [buildHistory, hlen, hstr]⟩
        | none => exact Or.inl (by simp [buildHistory, hlen, hstr])
      · exact Or.inl (by simp [buildHistory, hlen])

/-! ## Claims about the session memory manager -/

/-- C2: for every user_id, the history of a newly created session begins
with the fixed two-turn system-policy pair (policy statement with role
user, acknowledgment with role model) before any other content; and if
preference-seeding turns are present, they form exactly one matched
user/model pair appearing immediately after the policy pair and before
any real user message (at creation time the history is exactly the policy
pair, possibly followed by exactly the one seed pair, and nothing else). -/
theorem new_session_starts_with_policy_pair (sessions : SessionMap)
    (user_id : String) (o : Except String PyJson)
    (hnew : lookupKey sessions user_id = none) :
    (get_chat_session sessions user_id o).1.history.take 2 = policyPair ∧
      ((get_chat_session sessions user_id o).1.history = policyPair ∨
        ∃ ps, (get_chat_session sessions user_id o).1.history
          = policyPair ++ seedTurns ps) := by
  have hs : (get_chat_session sessions user_id o).1.history = buildHistory o := by
    simp [get_chat_session, hnew]
  rw [hs]
  refine ⟨?_, buildHistory_shape o⟩
  rcases buildHistory_shape o with h | ⟨ps, h⟩
  · rw [h]; rfl
  · rw [h]; rfl

/-- Witness for C2 at a concrete new user. -/
theorem new_session_starts_with_policy_pair_witness :
    (get_chat_session [] "u1" (.ok (.jlist []))).1.history.take 2 = policyPair ∧
      ((get_chat_session [] "u1" (.ok (.jlist []))).1.history = policyPair ∨
        ∃ ps, (get_chat_session [] "u1" (.ok (.jlist []))).1.history
          = policyPair ++ seedTurns ps) :=
  new_session_starts_with_policy_pair [] "u1" (.ok (.jlist [])) rfl

/-- C3: at session creation, if loading preferences returns one or more
preferences, exactly one extra user turn summarizing all of them
semicolon-joined plus one model acknowledgment turn are appended (two
extra turns total); if it returns zero preferences, no extra turns are
appended. -/
theorem preference_seeding_exact (sessions : SessionMap) (user_id : String)
    (strs : List String) (hnew : lookupKey sessions user_id = none)
    (hne : strs ≠ []) :
    (get_chat_session sessions user_id
        (.ok (.jlist (strs.map .jstr)))).1.history
      = policyPair ++ seedTurns strs ∧
    (get_chat_session sessions user_id (.ok (.jlist []))).1.history
      = policyPair := by
  constructor
  · have hlen : 0 < (strs.map PyJson.jstr).length := by
      simp only [List.length_map, List.length_pos]
      exact hne
    simp [get_chat_session, hnew, buildHistory, hlen, asStrList_map]
    exact fun h => absurd h hne
  · simp [get_chat_session, hnew, buildHistory]

/-- Witness for C3 at a concrete new user with one stored preference. -/
theorem preference_seeding_exact_witness :
    (get_chat_session [] "u1"
        (.ok (.jlist (["vegetarian"].map .jstr)))).1.history
      = policyPair ++ seedTurns ["vegetarian"] ∧
    (get_chat_session [] "u1" (.ok (.jlist []))).1.history = policyPair :=
  preference_seeding_exact [] "u1" ["vegetarian"] rfl (by simp)

/-- C4: for every user_id that already has a session in the session map,
get_chat_session returns that existing session object unchanged and leaves
the whole map untouched; the result does not depend on the preference-load
outcome o, so the preference store is not consulted. -/
theorem existing_session_unchanged (sessions : SessionMap) (user_id : String)
    (o : Except String PyJson) (s : Session)
    (hhit : lookupKey sessions user_id = some s) :
    get_chat_session sessions user_id o = (s, sessions) := by
  simp [get_chat_session, hhit]

/-- Witness for C4 at a concrete existing session. -/
theorem existing_session_unchanged_witness :
    get_chat_session [("u1", ⟨policyPair⟩)] "u1" (.error "store down")
      = (⟨policyPair⟩, [("u1", ⟨policyPair⟩)]) :=
  existing_session_unchanged [("u1", ⟨policyPair⟩)] "u1" (.error "store down")
    ⟨policyPair⟩ rfl

/-! ## Claims about identity injection and the preference tools -/

/-- C8: for every request and every argument mapping supplied by the model,
when the requested tool is save_preference or load_preferences the handler
is invoked with user_id equal to the user_id of the request, and two
argument mappings that differ only in a model-supplied user_id entry are
identical as keyword-argument maps after injection, so the model-supplied
identity has no influence on the arguments the handler receives. -/
theorem identity_injection_shields_user_id (user_id tool_name : String)
    (h : tool_name = "save_preference" ∨ tool_name = "load_preferences") :
    (∀ args : Args,
      lookupKey (injectArgs tool_name user_id args) "user_id" = some user_id) ∧
    (∀ a1 a2 : Args,
      (∀ k, k ≠ "user_id" → lookupKey a1 k = lookupKey a2 k) →
      ∀ k, lookupKey (injectArgs tool_name user_id a1) k
        = lookupKey (injectArgs tool_name user_id a2) k) := by
  have hmem : tool_name ∈ ["save_preference", "load_preferences"] := by
    rcases h with h | h <;> simp [h]
  constructor
  · intro args
    simp [injectArgs, hmem, lookupKey_setKey_self]
  · intro a1 a2 hagree k
    by_cases hk : k = "user_id"
    · subst hk
      simp [injectArgs, hmem, lookupKey_setKey_self]
    · simp only [injectArgs, if_pos hmem]
      rw [lookupKey_setKey_other _ _ _ _ hk, lookupKey_setKey_other _ _ _ _ hk]
      exact hagree k hk

/-- Witness for C8 at the concrete preference-load tool. -/
theorem identity_injection_shields_user_id_witness :
    (∀ args : Args,
      lookupKey (injectArgs "load_preferences" "u1" args) "user_id"
        = some "u1") ∧
    (∀ a1 a2 : Args,
      (∀ k, k ≠ "user_id" → lookupKey a1 k = lookupKey a2 k) →
      ∀ k, lookupKey (injectArgs "load_preferences" "u1" a1) k
        = lookupKey (injectArgs "load_preferences" "u1" a2) k) :=
  identity_injection_shields_user_id "u1" "load_preferences" (Or.inr rfl)

/-- Helper for C10: with a non-falsy user_id the guard of load_preferences
is not taken and the result is always a JSON list. -/
theorem load_preferences_yields_list (user_id : String)
    (st : List Document) (h : user_id ≠ "") :
    ∃ l, load_preferences (some user_id) st = .jlist l := by
  have hf : strFalsy (some user_id) = false := by simp [strFalsy, h]
  unfold load_preferences
  rw [hf]
  simp only [Bool.false_eq_true, if_false]
  split
  · exact ⟨[], rfl⟩
  · split
    · exact ⟨[], rfl⟩
    · exact ⟨_, rfl⟩

/-- C10 counterexample: the claim asserts the identity-guard error branch is
unreachable under the dispatch-loop injection, but the injection copies the
user_id of the request verbatim, and a request whose user_id is the empty
string makes the injected value falsy in Python: the guard branch of
load_preferences is then taken and the JSON error object is returned. -/
theorem identity_guard_reachable_cex :
    lookupKey (injectArgs "load_preferences" "" []) "user_id" = some "" ∧
    load_preferences (some "") [] = .jobj [("error", .jstr sysErrMsg)] :=
  ⟨rfl, rfl⟩

/-- C10 (amended): save_preference and load_preferences, when called with a
missing or empty user_id, return a JSON error object (as a string for
save_preference, whose result is consumed as text) without touching the
preference store and without raising; and under the identity injection of
the dispatch loop the guard branch is unreachable provided the user_id of
the request is nonempty. -/
theorem tools_identity_guard (preference user_id : String)
    (store : List Document) (h : user_id ≠ "") :
    (∀ st : List Document,
      load_preferences none st = .jobj [("error", .jstr sysErrMsg)] ∧
      load_preferences (some "") st = .jobj [("error", .jstr sysErrMsg)] ∧
      save_preference preference none st = (jsonErrorString sysErrMsg, st) ∧
      save_preference preference (some "") st
        = (jsonErrorString sysErrMsg, st)) ∧
    (∃ l, load_preferences (some user_id) store = .jlist l) ∧
    save_preference preference (some user_id) store
      = ("Successfully saved preference: \x27" ++ preference ++ "\x27",
         store ++ [⟨preference, some user_id, some "preference"⟩]) := by
  have hf : strFalsy (some user_id) = false := by simp [strFalsy, h]
  refine ⟨?_, load_preferences_yields_list user_id store h, ?_⟩
  · intro st
    refine ⟨?_, ?_, ?_, ?_⟩ <;> simp [load_preferences, save_preference, strFalsy]
  · simp [save_preference, hf]

/-- Witness for C10 (amended) at a concrete preference and user. -/
theorem tools_identity_guard_witness :
    (∀ st : List Document,
      load_preferences none st = .jobj [("error", .jstr sysErrMsg)] ∧
      load_preferences (some "") st = .jobj [("error", .jstr sysErrMsg)] ∧
      save_preference "vegetarian" none st = (jsonErrorString sysErrMsg, st) ∧
      save_preference "vegetarian" (some "") st
        = (jsonErrorString sysErrMsg, st)) ∧
    (∃ l, load_preferences (some "u1") [] = .jlist l) ∧
    save_preference "vegetarian" (some "u1") []
      = ("Successfully saved preference: \x27vegetarian\x27",
         [⟨"vegetarian", some "u1", some "preference"⟩]) :=
  tools_identity_guard "vegetarian" "u1" [] (by simp)

/-! ## Claims about the dispatch loop -/

/-- A one-entry registry used by concrete witness runs. -/
def wRegistry : Registry := [("get_weather", fun _ => .ok "sunny")]

/-- A response whose leading part is plain text. -/
def mkTextResponse (s : String) : GenResponse := ⟨[⟨⟨[⟨s, none⟩]⟩⟩]⟩

/-- A response whose leading part requests a tool call. -/
def mkCallResponse (name : String) (args : Args) : GenResponse :=
  ⟨[⟨⟨[⟨"", some ⟨name, args⟩⟩]⟩⟩]⟩

/-- C5: when the model requests a tool whose name is not in the registry,
the dispatch loop executes no handler (none exists for that name), does not
raise, and does not terminate on that condition by itself: it sends the
gateway an error-shaped function_response whose error message is exactly
"Unknown tool: <name>" with the requested name, and continues the loop with
the new response. -/
theorem unknown_tool_recovery (reg : Registry) (user_id : String)
    (g : Nat → Except String GenResponse) (fuel i : Nat)
    (response r : GenResponse) (sent : List FunctionResponse)
    (p : Part) (fc : ToolCall)
    (hp : leadingPart response = some p)
    (hfc : p.function_call = some fc)
    (hreg : lookupKey reg fc.name = none)
    (hg : g i = .ok r) :
    toolLoop reg user_id g (fuel + 1) response i sent
      = toolLoop reg user_id g fuel r (i + 1)
          (sent ++ [⟨fc.name, .failure ("Unknown tool: " ++ fc.name)⟩]) := by
  simp [toolLoop, hp, hfc, hreg, hg]

/-- Witness for C5: a concrete unknown-tool round. -/
theorem unknown_tool_recovery_witness :
    toolLoop wRegistry "u1" (fun _ => .ok (mkTextResponse "done")) 3
        (mkCallResponse "made_up_tool" []) 1 []
      = toolLoop wRegistry "u1" (fun _ => .ok (mkTextResponse "done")) 2
          (mkTextResponse "done") 2
          [⟨"made_up_tool", .failure ("Unknown tool: " ++ "made_up_tool")⟩] :=
  unknown_tool_recovery wRegistry "u1" (fun _ => .ok (mkTextResponse "done"))
    2 1 (mkCallResponse "made_up_tool" []) (mkTextResponse "done") []
    ⟨"", some ⟨"made_up_tool", []⟩⟩ ⟨"made_up_tool", []⟩ rfl rfl rfl rfl

/-- C6: when a known tool handler raises during execution, the dispatch
loop catches the exception, wraps its message as an error function_response
("Error executing tool: <message>"), sends it back to the gateway, and
continues looping; the handler exception is not propagated out of the loop
on that round. -/
theorem tool_exception_recovery (reg : Registry) (user_id : String)
    (g : Nat → Except String GenResponse) (fuel i : Nat)
    (response r : GenResponse) (sent : List FunctionResponse)
    (p : Part) (fc : ToolCall) (handler : Handler) (em : String)
    (hp : leadingPart response = some p)
    (hfc : p.function_call = some fc)
    (hreg : lookupKey reg fc.name = some handler)
    (hh : handler (injectArgs fc.name user_id fc.args) = .error em)
    (hg : g i = .ok r) :
    toolLoop reg user_id g (fuel + 1) response i sent
      = toolLoop reg user_id g fuel r (i + 1)
          (sent ++ [⟨fc.name, .failure ("Error executing tool: " ++ em)⟩]) := by
  simp [toolLoop, hp, hfc, hreg, hh, hg]

/-- A one-entry registry whose only handler always raises. -/
def wFailRegistry : Registry := [("get_weather", fun _ => .error "socket timeout")]

/-- Witness for C6: a concrete failing-handler round. -/
theorem tool_exception_recovery_witness :
    toolLoop wFailRegistry "u1" (fun _ => .ok (mkTextResponse "done")) 3
        (mkCallResponse "get_weather" [("city", "Lisbon")]) 1 []
      = toolLoop wFailRegistry "u1" (fun _ => .ok (mkTextResponse "done")) 2
          (mkTextResponse "done") 2
          [⟨"get_weather",
            .failure ("Error executing tool: " ++ "socket timeout")⟩] :=
  tool_exception_recovery wFailRegistry "u1"
    (fun _ => .ok (mkTextResponse "done")) 2 1
    (mkCallResponse "get_weather" [("city", "Lisbon")])
    (mkTextResponse "done") []
    ⟨"", some ⟨"get_weather", [("city", "Lisbon")]⟩⟩
    ⟨"get_weather", [("city", "Lisbon")]⟩
    (fun _ => .error "socket timeout") "socket timeout" rfl rfl rfl rfl rfl

/-- C9: if the response that ends the loop has no candidates, no content
parts, or no text in its leading part, the chat request returns the generic
apology string in the response field rather than raising or returning
partial content. -/
theorem empty_response_apology (sessions : SessionMap)
    (o : Except String PyJson) (reg : Registry) (request : ChatRequest)
    (g : Nat → Except String GenResponse) (fuel : Nat)
    (r0 rf : GenResponse) (out : List FunctionResponse) (nx : Nat)
    (hg0 : g 0 = .ok r0)
    (hloop : toolLoop reg request.user_id g fuel r0 1 [] = .finished rf out nx)
    (hbad : rf.candidates = [] ∨
      (∃ c rest, rf.candidates = c :: rest ∧ c.content.parts = []) ∨
      (∃ p, leadingPart rf = some p ∧ p.text = "")) :
    (chat_endpoint sessions o reg request g fuel).1
      = .reply request.user_id "Sorry, I encountered an error." := by
  have hfin : finishResponse request.user_id rf
      = .reply request.user_id "Sorry, I encountered an error." := by
    rcases hbad with h | ⟨c, rest, hc, hparts⟩ | ⟨p, hp, htext⟩
    · simp [finishResponse, leadingPart, h]
    · simp [finishResponse, leadingPart, hc, hparts]
    · simp [finishResponse, hp, htext]
  simp [chat_endpoint, hg0, hloop, hfin]

/-- Witness for C9: a gateway returning a response with no candidates. -/
theorem empty_response_apology_witness :
    (chat_endpoint [] (.ok (.jlist [])) wRegistry ⟨"u1", "hi"⟩
        (fun _ => .ok ⟨[]⟩) 1).1
      = .reply "u1" "Sorry, I encountered an error." :=
  empty_response_apology [] (.ok (.jlist [])) wRegistry ⟨"u1", "hi"⟩
    (fun _ => .ok ⟨[]⟩) 1 ⟨[]⟩ ⟨[]⟩ [] 1 rfl rfl (Or.inl rfl)

/-- C1 counterexample: the claim extends the catch of gateway failures to
every send inside the dispatch loop, but only the initial send (src/main.py
line 126) is inside a try; the sends at lines 154 and 183 are not. In this
concrete run the first response requests an unknown tool, the send of the
error-shaped function_response raises, and the exception escapes the
request handler instead of being returned as an error string in the
response field. -/
theorem gateway_failure_escapes_cex :
    chat_endpoint [] (.ok (.jlist [])) wRegistry ⟨"u1", "hi"⟩
        (fun i => if i = 0 then .ok (mkCallResponse "made_up_tool" [])
                  else .error "boom") 5
      = (.exn "boom", [("u1", ⟨policyPair⟩)]) := rfl

/-- C1 (amended): if the initial send of the user message to the Model
Gateway raises, the request returns the user-visible error string
"Sorry, I encountered an error: <e>" in the response field, without
retrying (the result does not depend on any later gateway outcome) and
without the exception escaping the request handler; gateway failures on
the sends inside the dispatch loop are not caught and escape the handler
(after one additional error-shaped send when the failure hit the
success-result send at line 173, whose exception the tool-error handler
catches first). -/
theorem initial_send_failure_reply (sessions : SessionMap)
    (o : Except String PyJson) (reg : Registry) (request : ChatRequest)
    (g : Nat → Except String GenResponse) (fuel : Nat) (e : String)
    (hg : g 0 = .error e) :
    chat_endpoint sessions o reg request g fuel
      = (.reply request.user_id ("Sorry, I encountered an error: " ++ e),
         (get_chat_session sessions request.user_id o).2) := by
  simp [chat_endpoint, hg]

/-- Witness for C1 (amended): the gateway is down from the start. -/
theorem initial_send_failure_reply_witness :
    chat_endpoint [] (.ok (.jlist [])) wRegistry ⟨"u1", "hi"⟩
        (fun _ => .error "connection refused") 3
      = (.reply "u1" ("Sorry, I encountered an error: " ++ "connection refused"),
         (get_chat_session [] "u1" (.ok (.jlist []))).2) :=
  initial_send_failure_reply [] (.ok (.jlist [])) wRegistry ⟨"u1", "hi"⟩
    (fun _ => .error "connection refused") 3 "connection refused" rfl

/-! ## Termination of the dispatch loop -/

/-- The responses the loop sees when it starts on s and the k-th later
send (gateway index j + k) yields resps (j + k). -/
def respChain (s : GenResponse) (resps : Nat → GenResponse) (j : Nat) :
    Nat → GenResponse
  | 0 => s
  | k + 1 => resps (j + k)

theorem respChain_shift (s : GenResponse) (resps : Nat → GenResponse)
    (j k : Nat) :
    respChain (resps j) resps (j + 1) k = respChain s resps j (k + 1) := by
  cases k with
  | zero => simp [respChain]
  | succ k =>
      have hjk : j + 1 + k = j + (k + 1) := by omega
      simp [respChain, hjk]

/-- The loop breaks at once when the current response carries no pending
tool call (src/main.py lines 136-143). -/
theorem toolLoop_finish (reg : Registry) (user_id : String)
    (g : Nat → Except String GenResponse) (fuel : Nat) (s : GenResponse)
    (j : Nat) (sent : List FunctionResponse)
    (hs : leadingCall s = none) :
    toolLoop reg user_id g (fuel + 1) s j sent = .finished s sent j := by
  unfold leadingCall at hs
  match hp : leadingPart s with
  | none => simp [toolLoop, hp]
  | some p =>
      rw [hp] at hs
      have hs2 : p.function_call = none := by simpa using hs
      simp [toolLoop, hp, hs2]

/-- When the current response carries a pending tool call and the gateway
answers the next send, one round runs: exactly one function_response is
sent and the loop continues on the new response with one gateway outcome
consumed, whatever the registry lookup and handler outcome were. -/
theorem toolLoop_round (reg : Registry) (user_id : String)
    (g : Nat → Except String GenResponse) (fuel : Nat) (s : GenResponse)
    (j : Nat) (sent : List FunctionResponse) (fc : ToolCall)
    (r : GenResponse)
    (hc : leadingCall s = some fc) (hg : g j = .ok r) :
    ∃ fr : FunctionResponse,
      toolLoop reg user_id g (fuel + 1) s j sent
        = toolLoop reg user_id g fuel r (j + 1) (sent ++ [fr]) := by
  unfold leadingCall at hc
  match hp : leadingPart s with
  | none => rw [hp] at hc; cases hc
  | some p =>
      rw [hp] at hc
      have hc2 : p.function_call = some fc := by simpa using hc
      match hreg : lookupKey reg fc.name with
      | none =>
          exact ⟨⟨fc.name, .failure ("Unknown tool: " ++ fc.name)⟩,
            by simp [toolLoop, hp, hc2, hreg, hg]⟩
      | some handler =>
          match hh : handler (injectArgs fc.name user_id fc.args) with
          | .ok tr =>
              exact ⟨⟨fc.name, .result tr⟩,
                by simp [toolLoop, hp, hc2, hreg, hh, hg]⟩
          | .error em =>
              exact ⟨⟨fc.name, .failure ("Error executing tool: " ++ em)⟩,
                by simp [toolLoop, hp, hc2, hreg, hh, hg]⟩

/-- With a gateway that answers every send, a loop started on a response
chain whose first n responses all carry pending tool calls and whose n-th
carries none finishes on that n-th response in exactly n rounds, one sent
function_response per preceding tool-call response, for any fuel above n. -/
theorem toolLoop_runs_chain (reg : Registry) (user_id : String)
    (resps : Nat → GenResponse) (g : Nat → Except String GenResponse)
    (hg : ∀ i, g i = .ok (resps i)) :
    ∀ (n : Nat) (s : GenResponse) (j : Nat) (sent : List FunctionResponse)
      (fuel : Nat), n < fuel →
      (∀ k, k < n → (leadingCall (respChain s resps j k)).isSome = true) →
      leadingCall (respChain s resps j n) = none →
      ∃ extra, toolLoop reg user_id g fuel s j sent
          = .finished (respChain s resps j n) (sent ++ extra) (j + n)
        ∧ extra.length = n := by
  intro n
  induction n with
  | zero =>
      intro s j sent fuel hfuel _ hstop
      obtain ⟨f, rfl⟩ : ∃ f, fuel = f + 1 := ⟨fuel - 1, by omega⟩
      refine ⟨[], ?_, rfl⟩
      rw [toolLoop_finish reg user_id g f s j sent hstop]
      simp [respChain]
  | succ n ih =>
      intro s j sent fuel hfuel hcalls hstop
      obtain ⟨f, rfl⟩ : ∃ f, fuel = f + 1 := ⟨fuel - 1, by omega⟩
      have hc0 : (leadingCall (respChain s resps j 0)).isSome = true :=
        hcalls 0 (Nat.succ_pos n)
      simp only [respChain] at hc0
      obtain ⟨fc, hfc⟩ := Option.isSome_iff_exists.mp hc0
      obtain ⟨fr, hround⟩ :=
        toolLoop_round reg user_id g f s j sent fc (resps j) hfc (hg j)
      rw [hround]
      have hcalls2 : ∀ k, k < n →
          (leadingCall (respChain (resps j) resps (j + 1) k)).isSome = true := by
        intro k hk
        rw [respChain_shift s]
        exact hcalls (k + 1) (by omega)
      have hstop2 :
          leadingCall (respChain (resps j) resps (j + 1) n) = none := by
        rw [respChain_shift s]
        exact hstop
      obtain ⟨extra, heq, hlen⟩ :=
        ih (resps j) (j + 1) (sent ++ [fr]) f (by omega) hcalls2 hstop2
      refine ⟨fr :: extra, ?_, by simp [hlen]⟩
      rw [heq]
      congr 1
      · exact respChain_shift s resps j n
      · simp
      · omega

/-- The loop never exits normally while the current response still carries
a pending tool call: a finished result always ends on a response whose
leading content part is no tool-call request. -/
theorem toolLoop_finished_no_pending (reg : Registry) (user_id : String)
    (g : Nat → Except String GenResponse) :
    ∀ (fuel : Nat) (s : GenResponse) (j : Nat) (sent : List FunctionResponse)
      (r : GenResponse) (out : List FunctionResponse) (nx : Nat),
      toolLoop reg user_id g fuel s j sent = .finished r out nx →
      leadingCall r = none := by
  intro fuel
  induction fuel with
  | zero =>
      intro s j sent r out nx h
      simp [toolLoop] at h
  | succ f ih =>
      intro s j sent r out nx h
      simp only [toolLoop] at h
      split at h
      · rename_i hp
        obtain ⟨h1, h2, h3⟩ := LoopResult.finished.injEq .. ▸ h
        subst h1
        simp [leadingCall, hp]
      · rename_i p hp
        split at h
        · rename_i hfc
          obtain ⟨h1, h2, h3⟩ := LoopResult.finished.injEq .. ▸ h
          subst h1
          simp [leadingCall, hp, hfc]
        · rename_i fc hfc
          split at h
          · split at h
            · cases h
            · exact ih _ _ _ _ _ _ h
          · rename_i handler hreg
            split at h
            · split at h
              · exact ih _ _ _ _ _ _ h
              · split at h
                · exact ih _ _ _ _ _ _ h
                · cases h
            · split at h
              · exact ih _ _ _ _ _ _ h
              · cases h

/-- C7: for every sequence of Model Gateway responses in which the n-th
response after the initial one is the first whose leading content part is
plain text or empty (carries no tool call), the dispatch loop terminates
after finitely many rounds — it finishes on exactly that response for any
fuel above n, performing one tool round (one function_response sent, one
gateway outcome consumed) per preceding tool-call response; and the loop
never exits normally while the leading content part of the current
response is a tool-call request. -/
theorem dispatch_loop_termination (reg : Registry) (user_id : String)
    (resps : Nat → GenResponse) (g : Nat → Except String GenResponse)
    (n fuel : Nat) (s : GenResponse)
    (hg : ∀ i, g i = .ok (resps i))
    (hfuel : n < fuel)
    (hcalls : ∀ k, k < n → (leadingCall (respChain s resps 1 k)).isSome = true)
    (hstop : leadingCall (respChain s resps 1 n) = none) :
    (∃ extra, toolLoop reg user_id g fuel s 1 []
        = .finished (respChain s resps 1 n) extra (1 + n)
      ∧ extra.length = n) ∧
    (∀ (fuel2 : Nat) (s2 : GenResponse) (j2 : Nat)
        (sent2 : List FunctionResponse) (r2 : GenResponse)
        (out2 : List FunctionResponse) (nx2 : Nat),
      toolLoop reg user_id g fuel2 s2 j2 sent2 = .finished r2 out2 nx2 →
      leadingCall r2 = none) := by
  constructor
  · obtain ⟨extra, heq, hlen⟩ :=
      toolLoop_runs_chain reg user_id resps g hg n s 1 [] fuel hfuel
        hcalls hstop
    exact ⟨extra, heq, hlen⟩
  · exact fun fuel2 s2 j2 sent2 r2 out2 nx2 hh =>
      toolLoop_finished_no_pending reg user_id g fuel2 s2 j2 sent2 r2 out2
        nx2 hh

/-- Witness for C7: one tool round (a weather call) then final text. -/
theorem dispatch_loop_termination_witness :
    (∃ extra, toolLoop wRegistry "u1"
          (fun _ => .ok (mkTextResponse "plan"))
          2 (mkCallResponse "get_weather" [("city", "Lisbon")]) 1 []
        = .finished
            (respChain (mkCallResponse "get_weather" [("city", "Lisbon")])
              (fun _ => mkTextResponse "plan") 1 1) extra (1 + 1)
      ∧ extra.length = 1) ∧
    (∀ (fuel2 : Nat) (s2 : GenResponse) (j2 : Nat)
        (sent2 : List FunctionResponse) (r2 : GenResponse)
        (out2 : List FunctionResponse) (nx2 : Nat),
      toolLoop wRegistry "u1" (fun _ => .ok (mkTextResponse "plan"))
          fuel2 s2 j2 sent2 = .finished r2 out2 nx2 →
      leadingCall r2 = none) :=
  dispatch_loop_termination wRegistry "u1" (fun _ => mkTextResponse "plan")
    (fun _ => .ok (mkTextResponse "plan")) 1 2
    (mkCallResponse "get_weather" [("city", "Lisbon")])
    (fun _ => rfl) (by omega)
    (by
      intro k hk
      have hk0 : k = 0 := by omega
      subst hk0
      rfl)
    rfl

end TravelAgent
